import Mathlib

/-!
Verification of the hybrid ranking pipeline in `app/agent/curator_agent.py`.

The embedding is shallow: Python floats are modelled as exact rationals
(`ℚ`), Python lists as `List`, Python `set` as `Finset String`, `datetime`
values as absolute POSIX timestamps in seconds (`ℚ`), and the ambient
clock `_now_utc()` as an explicit `now : ℚ` parameter.  A raised Python
exception is modelled with `Except`/`Option`.  The external LLM call is a
parameter: `none` stands for "the call raised", and a score mapping
stands for the parsed reply.  `json.loads` (a stdlib function, not part
of the repository) is modelled as an oracle parameter
`loads : String → Option Json`, `none` meaning the library raised on
invalid JSON.  Python's `list.sort(key=..., reverse=True)` is a stable
descending sort; all stable sorts compute the same list, so it is
embedded as `List.insertionSort` with the reflexive "greater or equal on
the key" relation, which is stable in exactly the same sense.

Arithmetic on `ℚ` is written with the wrappers `qadd`, `qsub`, `qmul`,
`qdiv` below, which are proved equal to `+`, `-`, `*`, `/` (theorems
`qadd_eq` … `qdiv_eq`); they exist only because Mathlib's `Rat.add` etc.
are `@[irreducible]`, which would block kernel evaluation of concrete
witnesses.  Decimal literals of the source (1.2, 0.8, 0.7, 1.5) appear
as the equal `Rat.divInt` fractions for the same reason.
-/

/-! ### Kernel-computable rational arithmetic -/

/-- Python `a + b` on floats, modelled exactly on `ℚ`. -/
def qadd (a b : ℚ) : ℚ := Rat.divInt (a.num * b.den + b.num * a.den) (a.den * b.den)

/-- Python `a - b` on floats, modelled exactly on `ℚ`. -/
def qsub (a b : ℚ) : ℚ := Rat.divInt (a.num * b.den - b.num * a.den) (a.den * b.den)

/-- Python `a * b` on floats, modelled exactly on `ℚ`. -/
def qmul (a b : ℚ) : ℚ := Rat.divInt (a.num * b.num) (a.den * b.den)

/-- Python `a / b` on floats, modelled exactly on `ℚ`. -/
def qdiv (a b : ℚ) : ℚ := Rat.divInt (a.num * b.den) (a.den * b.num)

/-! ### Tokenizer (`_tokenize`) -/

/-- Character class of the regex `[a-z0-9]` applied after `str.lower()`. -/
def isLowerAlnum (c : Char) : Bool :=
  (97 ≤ c.toNat && c.toNat ≤ 122) || (48 ≤ c.toNat && c.toNat ≤ 57)

/-- Maximal runs of `[a-z0-9]` characters; the accumulator is the current
run reversed.  `re.findall(r"[a-z0-9]{4,}", s)` equals these runs
filtered to length ≥ 4, since the regex is greedy. -/
def runsAux : List Char → List Char → List (List Char)
  | [], cur => if cur = [] then [] else [cur.reverse]
  | c :: rest, cur =>
    if isLowerAlnum c then runsAux rest (c :: cur)
    else if cur = [] then runsAux rest [] else cur.reverse :: runsAux rest []

/-- Model of `_tokenize(text)`: lower-case, then all maximal alphanumeric runs of
length ≥ 4, in order.  `none` models Python `None` (the code does
`(text or "").lower()`). -/
def _tokenize (text : Option String) : List String :=
  ((runsAux ((text.getD "").data.map Char.toLower) []).filter
      (fun r => 4 ≤ r.length)).map (fun r => String.mk r)

/-! ### Data model -/

/-- A candidate digest dict as consumed by `CuratorAgent`.  `title` and
`summary` may be Python `None`; `created_at` is `some` of a POSIX
timestamp in seconds when the dict holds a `datetime`, else `none`. -/
structure Digest where
  id : String
  title : Option String
  summary : Option String
  article_type : String
  created_at : Option ℚ
deriving Repr, DecidableEq

/-- The reader profile dict.  The preference flags model the truthiness
of `prefs.get(...)`. -/
structure UserProfile where
  name : Option String
  background : Option String
  expertise_level : Option String
  interests : List String
  prefer_system_design : Bool
  prefer_implementation_details : Bool
  prefer_production_realism : Bool
  avoid_marketing_hype : Bool
deriving Repr, DecidableEq

/-- The set `self.interest_tokens = set(_tokenize(" ".join(interests)))`. -/
def interestTokens (p : UserProfile) : Finset String :=
  (_tokenize (some (String.intercalate " " p.interests))).toFinset

/-- The set `self.boost_terms` built from the three positive preference flags. -/
def boostTerms (p : UserProfile) : Finset String :=
  ((if p.prefer_system_design then
      ["architecture", "pipeline", "scalability", "latency", "reliability"] else []) ++
   (if p.prefer_implementation_details then
      ["implementation", "benchmark", "evaluation", "metrics", "code"] else []) ++
   (if p.prefer_production_realism then
      ["production", "deployment", "monitoring", "incident", "cost"] else [])).toFinset

/-- The set `self.down_terms` built from the `avoid_marketing_hype` flag. -/
def downTerms (p : UserProfile) : Finset String :=
  (if p.avoid_marketing_hype then
      ["webinar", "register", "limited", "launch", "partnership"] else []).toFinset

/-! ### Python float formatting for the rationale string -/

/-- Round a rational to the nearest integer, halves to even, matching the
rounding used by Python's fixed-point float formatting. -/
def roundHalfEvenQ (q : ℚ) : ℤ :=
  let f := q.floor
  let r := qsub q (Rat.divInt f 1)
  if r < Rat.divInt 1 2 then f
  else if Rat.divInt 1 2 < r then f + 1
  else if f % 2 = 0 then f else f + 1

/-- Python `f"{x:.2f}"` for the nonnegative recency values that occur. -/
def fmt2 (q : ℚ) : String :=
  let c := roundHalfEvenQ (qmul q 100)
  let cents := (c % 100).toNat
  toString (c / 100) ++ "." ++
    (if cents < 10 then "0" ++ toString cents else toString cents)

/-! ### Heuristic scorer (`CuratorAgent._heuristic_score`) -/

/-- The four quantities computed by `_heuristic_score`: interest-set
hits, boost-set hits, down-set hits, recency bonus.  Recency is
`max(0.0, 1.5 - (age_h / 24.0) * 1.5)` with
`age_h = max(0.0, (now - created_at) / 3600)`, and 0 when `created_at`
is not a datetime. -/
def heuristicParts (p : UserProfile) (now : ℚ) (d : Digest) : ℕ × ℕ × ℕ × ℚ :=
  let t := (d.title.getD "") ++ " " ++ (d.summary.getD "")
  let toks := (_tokenize (some t)).toFinset
  let interest_hits := (toks ∩ interestTokens p).card
  let boost_hits := (toks ∩ boostTerms p).card
  let down_hits := (toks ∩ downTerms p).card
  let recency :=
    match d.created_at with
    | none => 0
    | some ts =>
        max 0 (qsub (Rat.divInt 3 2)
          (qmul (qdiv (max 0 (qdiv (qsub now ts) 3600)) 24) (Rat.divInt 3 2)))
  (interest_hits, boost_hits, down_hits, recency)

/-- Model of `_heuristic_score(d)`: it returns `(score, why)` with score
`interest_hits * 1.2 + boost_hits * 0.8 - down_hits * 0.7 + recency` and
`why` exactly
`f"interest={interest_hits}, boost={boost_hits}, recency={recency:.2f}"`. -/
def _heuristic_score (p : UserProfile) (now : ℚ) (d : Digest) : ℚ × String :=
  let parts := heuristicParts p now d
  (qadd (qsub (qadd (qmul (parts.1 : ℚ) (Rat.divInt 6 5))
                    (qmul (parts.2.1 : ℚ) (Rat.divInt 4 5)))
              (qmul (parts.2.2.1 : ℚ) (Rat.divInt 7 10)))
        parts.2.2.2,
   "interest=" ++ toString parts.1 ++ ", boost=" ++ toString parts.2.1 ++
     ", recency=" ++ fmt2 parts.2.2.2)

/-! ### Pre-ranker (`CuratorAgent._pre_rank`) -/

/-- A digest dict annotated by `_pre_rank` with `_heur_score` and
`_heur_why`. -/
structure Scored where
  dg : Digest
  hs : ℚ
  why : String
deriving Repr, DecidableEq

/-- Sort relation of `scored.sort(key=lambda x: x["_heur_score"], reverse=True)`. -/
def scoredGE (a b : Scored) : Prop := b.hs ≤ a.hs

instance : DecidableRel scoredGE := fun a b => inferInstanceAs (Decidable (b.hs ≤ a.hs))

instance : IsTotal Scored scoredGE := ⟨fun a b => le_total b.hs a.hs⟩

instance : IsTrans Scored scoredGE := ⟨fun _ _ _ hab hbc => le_trans hbc hab⟩

/-- Model of `_pre_rank(digests, keep)`: score every digest, stable-sort by
heuristic score descending, keep the first `keep`. -/
def _pre_rank (p : UserProfile) (now : ℚ) (digests : List Digest) (keep : ℕ) : List Scored :=
  (List.insertionSort scoredGE
    (digests.map (fun d =>
      ⟨d, (_heuristic_score p now d).1, (_heuristic_score p now d).2⟩))).take keep

/-! ### Ranking coordinator (`CuratorAgent.rank_digests`) -/

/-- Constant `PRE_RANK_KEEP = 25`. -/
def PRE_RANK_KEEP : ℕ := 25

/-- Output schema `RankedArticle` of the pipeline. -/
structure RankedArticle where
  digest_id : String
  relevance_score : ℚ
  rank : ℕ
  reasoning : String
deriving Repr, DecidableEq

/-- Python `max(0.0, min(10.0, q))`. -/
def clampScore (q : ℚ) : ℚ := max 0 (min 10 q)

/-- The fallback formula `max(0.0, min(10.0, 3.0 + min(7.0, heur)))`
used on both the per-item-missing path and the global-failure path. -/
def fallbackScore (h : ℚ) : ℚ := clampScore (qadd 3 (min 7 h))

/-- Python dict membership plus subscript: `did in llm_scores` /
`llm_scores[did]`. -/
def dictLookup (m : List (String × ℚ)) (k : String) : Option ℚ :=
  (m.find? (fun e => e.1 == k)).map (fun e => e.2)

/-- One row `(digest_id, score, reasoning)` of `final_rows`.  `llm = none`
is the `except` branch (the LLM call raised); `llm = some m` is the
success branch merging the parsed score map `m`. -/
def mergeRow (llm : Option (List (String × ℚ))) (s : Scored) : String × ℚ × String :=
  match llm with
  | none =>
      (s.dg.id, fallbackScore s.hs, "Heuristic ranking (no LLM): " ++ s.why)
  | some m =>
      match dictLookup m s.dg.id with
      | some sc =>
          (s.dg.id, clampScore sc, "LLM relevance score (shortlisted after heuristic pre-rank)")
      | none =>
          (s.dg.id, fallbackScore s.hs, "Fallback heuristic (LLM did not return score): " ++ s.why)

/-- Model of `shortlisted = self._pre_rank(digests, keep=min(PRE_RANK_KEEP, len(digests)))`. -/
def shortlist (p : UserProfile) (now : ℚ) (digests : List Digest) : List Scored :=
  _pre_rank p now digests (min PRE_RANK_KEEP digests.length)

/-- The complete `final_rows` list of `rank_digests`. -/
def finalRows (p : UserProfile) (now : ℚ) (llm : Option (List (String × ℚ)))
    (digests : List Digest) : List (String × ℚ × String) :=
  (shortlist p now digests).map (mergeRow llm)

/-- Sort relation of `final_rows.sort(key=lambda x: x[1], reverse=True)`. -/
def rowGE (a b : String × ℚ × String) : Prop := b.2.1 ≤ a.2.1

instance : DecidableRel rowGE := fun a b => inferInstanceAs (Decidable (b.2.1 ≤ a.2.1))

instance : IsTotal (String × ℚ × String) rowGE := ⟨fun a b => le_total b.2.1 a.2.1⟩

instance : IsTrans (String × ℚ × String) rowGE := ⟨fun _ _ _ hab hbc => le_trans hbc hab⟩

/-- Conversion of an `enumerate(final_rows, start=1)` entry to a `RankedArticle`. -/
def toRanked (ir : ℕ × String × ℚ × String) : RankedArticle :=
  ⟨ir.2.1, ir.2.2.1, ir.1, ir.2.2.2⟩

/-- Model of `CuratorAgent.rank_digests`: empty pool short-circuits; otherwise
pre-rank, merge LLM scores (or fall back wholesale when the call raised),
stable-sort by score descending, assign dense 1-based ranks. -/
def rank_digests (p : UserProfile) (now : ℚ) (llm : Option (List (String × ℚ)))
    (digests : List Digest) : List RankedArticle :=
  if digests.isEmpty then []
  else
    (List.enumFrom 1 (List.insertionSort rowGE (finalRows p now llm digests))).map toRanked

/-! ### Request building (`CuratorAgent._llm_score`, prompt assembly) -/

/-- Python f-string interpolation of a value that may be `None`. -/
def optStr : Option String → String
  | none => "None"
  | some s => s

/-- One per-item block of the `digest_list` prompt section:
`f"ID: {id}\nTitle: {title}\nSummary: {summary}\nType: {article_type}"`.
No truncation is applied to any field. -/
def digestBlock (d : Digest) : String :=
  "ID: " ++ d.id ++ "\nTitle: " ++ optStr d.title ++ "\nSummary: " ++
    optStr d.summary ++ "\nType: " ++ d.article_type

/-- Model of `digest_list = "\n\n".join(per-item blocks)`. -/
def digestList (ds : List Digest) : String :=
  String.intercalate "\n\n" (ds.map digestBlock)

/-! ### Response parsing (`_extract_json` and the loop in `_llm_score`) -/

/-- JSON values as produced by `json.loads`. -/
inductive Json where
  | null
  | bool (b : Bool)
  | num (q : ℚ)
  | str (s : String)
  | arr (items : List Json)
  | obj (fields : List (String × Json))

/-- The backtick character of the code-fence test. -/
def backtickChar : Char := Char.ofNat 96

/-- Python `str.strip()`. -/
def pyStrip (l : List Char) : List Char :=
  ((l.dropWhile Char.isWhitespace).reverse.dropWhile Char.isWhitespace).reverse

/-- The prefix of the input up to (excluding) the next occurrence of
three consecutive backticks: this is `text.split("```")[1]` once the
leading fence has been dropped. -/
def upToFence : List Char → List Char
  | [] => []
  | c :: rest =>
    if c = backtickChar ∧ rest.take 2 = [backtickChar, backtickChar] then []
    else c :: upToFence rest

/-- Model of `re.sub(r"^\s*json\s*", "", text, flags=IGNORECASE)` applied to an
already-stripped string. -/
def dropJsonTag (l : List Char) : List Char :=
  if (l.take 4).map Char.toLower = ['j', 's', 'o', 'n'] then
    (l.drop 4).dropWhile Char.isWhitespace
  else l

/-- Model of `_extract_json(text)`: strip, unwrap a leading code fence (with an
optional `json` language tag), then slice from the first `{` to the last
`}`.  `Except.error ()` models the `ValueError` raised when no such span
exists. -/
def _extract_json (text : String) : Except Unit String :=
  let t0 := pyStrip text.data
  let t :=
    if t0.take 3 = [backtickChar, backtickChar, backtickChar] then
      pyStrip (dropJsonTag (pyStrip (upToFence (t0.drop 3))))
    else t0
  match t.findIdx? (fun c => c = Char.ofNat 123),
        t.reverse.findIdx? (fun c => c = Char.ofNat 125) with
  | some s, some re =>
      let e := t.length - 1 - re
      if e ≤ s then Except.error () else Except.ok (String.mk ((t.drop s).take (e + 1 - s)))
  | some _, none => Except.error ()
  | none, _ => Except.error ()

/-- Python truthiness of a JSON value, for `if did and ...`. -/
def pyTruthy : Json → Bool
  | Json.null => false
  | Json.bool b => b
  | Json.num q => decide (q ≠ 0)
  | Json.str s => !s.isEmpty
  | Json.arr items => !items.isEmpty
  | Json.obj fields => !fields.isEmpty

/-- Python `isinstance(sc, (int, float))` plus `float(sc)`; note that
`bool` is a subclass of `int` in Python. -/
def pyNumeric : Json → Option ℚ
  | Json.num q => some q
  | Json.bool b => some (if b then 1 else 0)
  | _ => none

/-- Python dict update `scores[did] = v`: last write wins, at most one
entry per key. -/
def dictInsertQ (m : List (String × ℚ)) (k : String) (v : ℚ) : List (String × ℚ) :=
  (m.filter (fun e => !(e.1 == k))) ++ [(k, v)]

/-- Python `data.get(key)` on a JSON object. -/
def jsonGet (j : Json) (k : String) : Option Json :=
  match j with
  | Json.obj fields => (fields.find? (fun e => e.1 == k)).map (fun e => e.2)
  | _ => none

/-- The accumulation loop `for item in data.get("articles", []): ...` of
`_llm_score`, over the items of the `articles` list.  An entry that is
not a dict raises `AttributeError` at `item.get` (`Except.error`);
entries with a falsy `digest_id` or a non-numeric `relevance_score` are
skipped.  A truthy non-string `digest_id` would become a dict key that
can never equal a digest's string id, so it is omitted from the
string-keyed map. -/
def scoresFromArticles (items : List Json) : Except Unit (List (String × ℚ)) :=
  items.foldlM
    (fun acc item =>
      match item with
      | Json.obj fields =>
          match (fields.find? (fun e => e.1 == "digest_id")).map (fun e => e.2),
                (fields.find? (fun e => e.1 == "relevance_score")).map (fun e => e.2) with
          | some dv, some sv =>
              if pyTruthy dv then
                match pyNumeric sv with
                | some q =>
                    match dv with
                    | Json.str s => Except.ok (dictInsertQ acc s q)
                    | _ => Except.ok acc
                | none => Except.ok acc
              else Except.ok acc
          | _, _ => Except.ok acc
      | _ => Except.error ())
    []

/-- Model of `data.get("articles", [])` followed by the accumulation loop.  An
absent `articles` key (or a present empty dict / empty string value,
which iterate over nothing) yields the empty map with no error; a
non-iterable or key-iterating value raises. -/
def scoresFromData (data : Json) : Except Unit (List (String × ℚ)) :=
  match data with
  | Json.obj fields =>
      match jsonGet (Json.obj fields) "articles" with
      | none => Except.ok []
      | some (Json.arr items) => scoresFromArticles items
      | some (Json.obj []) => Except.ok []
      | some (Json.str s) => if s.isEmpty then Except.ok [] else Except.error ()
      | some _ => Except.error ()
  | _ => Except.error ()

/-- The parsing stage of `_llm_score` after the network reply `text` is
in hand: `_extract_json`, then `json.loads` (the oracle `loads`), then
the score-accumulation loop.  Any `Except.error` here is caught by the
`except` branch of `rank_digests`. -/
def llmParse (loads : String → Option Json) (text : String) :
    Except Unit (List (String × ℚ)) :=
  match _extract_json text with
  | Except.error e => Except.error e
  | Except.ok jt =>
      match loads jt with
      | none => Except.error ()
      | some data => scoresFromData data

/-! ### Substring containment, for claims about rationale contents -/

/-- Whether `sub` occurs as a contiguous substring of `s`. -/
def strContains (s sub : String) : Bool :=
  s.data.tails.any (fun t => sub.data.isPrefixOf t)

/-! ### Concrete inputs used by witnesses and counterexamples -/

/-- An empty profile: no interests, no preference flags. -/
def p0 : UserProfile := ⟨none, none, none, [], false, false, false, false⟩

/-- A profile whose only preference is `avoid_marketing_hype`. -/
def pHype : UserProfile := ⟨none, none, none, [], false, false, false, true⟩

/-- A contentless digest without a timestamp. -/
def d0 : Digest := ⟨"a", none, none, "", none⟩

/-- A second contentless digest without a timestamp. -/
def d1 : Digest := ⟨"b", none, none, "", none⟩

/-- A digest created at POSIX time 0. -/
def dC9 : Digest := ⟨"x", none, none, "", some 0⟩

/-- A digest whose only token is the down-term "webinar". -/
def dWeb : Digest := ⟨"w", some "webinar", none, "", none⟩

/-- A well-formed JSON object text with no `articles` key. -/
def text0 : String := "\x7b\"a\": 1\x7d"

/-- The parse of `text0`. -/
def json0 : Json := Json.obj [("a", Json.num 1)]

/-- Oracle for `json.loads` that parses exactly `text0` (to `json0`), per
JSON semantics, and rejects everything else. -/
def loads0 : String → Option Json := fun s => if s = text0 then some json0 else none

/-! ## Faithfulness of the computable arithmetic wrappers -/

/-- Wrapper `qadd` is rational addition. -/
theorem qadd_eq (a b : ℚ) : qadd a b = a + b := by
  rw [qadd]
  conv_rhs => rw [← Rat.num_divInt_den a, ← Rat.num_divInt_den b]
  rw [Rat.divInt_add_divInt _ _ (Int.natCast_ne_zero.mpr a.den_nz)
    (Int.natCast_ne_zero.mpr b.den_nz)]

/-- Wrapper `qsub` is rational subtraction. -/
theorem qsub_eq (a b : ℚ) : qsub a b = a - b := by
  rw [qsub]
  conv_rhs => rw [← Rat.num_divInt_den a, ← Rat.num_divInt_den b]
  rw [Rat.divInt_sub_divInt _ _ (Int.natCast_ne_zero.mpr a.den_nz)
    (Int.natCast_ne_zero.mpr b.den_nz)]

/-- Wrapper `qmul` is rational multiplication. -/
theorem qmul_eq (a b : ℚ) : qmul a b = a * b := by
  rw [qmul]
  conv_rhs => rw [← Rat.num_divInt_den a, ← Rat.num_divInt_den b]
  rw [Rat.divInt_mul_divInt']

/-- Wrapper `qdiv` is rational division. -/
theorem qdiv_eq (a b : ℚ) : qdiv a b = a / b := by
  rw [qdiv]
  conv_rhs => rw [← Rat.num_divInt_den a, ← Rat.num_divInt_den b]
  rw [Rat.divInt_div_divInt]

/-! ## Clamp bounds -/

theorem clampScore_nonneg (q : ℚ) : 0 ≤ clampScore q := le_max_left 0 _

theorem clampScore_le_ten (q : ℚ) : clampScore q ≤ 10 :=
  max_le (by norm_num) (min_le_left _ _)

/-! ## Substring machinery -/

theorem isPrefixOf_self_append (l r : List Char) : l.isPrefixOf (l ++ r) = true := by
  induction l with
  | nil => simp [List.isPrefixOf]
  | cons c t ih => simp [List.isPrefixOf, ih]

theorem suffix_mem_tails (l1 l2 : List Char) : l2 ∈ (l1 ++ l2).tails := by
  induction l1 with
  | nil =>
      cases l2 with
      | nil => simp [List.tails]
      | cons c t => simp [List.tails_cons]
  | cons c t ih => simp only [List.cons_append, List.tails_cons, List.mem_cons]; exact Or.inr ih

theorem strContains_of_data (s m : String) (pre suf : List Char)
    (h : s.data = pre ++ (m.data ++ suf)) : strContains s m = true := by
  rw [strContains, List.any_eq_true]
  exact ⟨m.data ++ suf, h ▸ suffix_mem_tails pre _, isPrefixOf_self_append _ _⟩

/-! ## Stability of the stable sort under score-equality filters -/

theorem filter_orderedInsert_ties {α : Type} (r : α → α → Prop) [DecidableRel r] (p : α → Bool)
    (H : ∀ a b, p a = true → p b = true → r a b) (x : α) :
    ∀ s : List α, (List.orderedInsert r x s).filter p
      = if p x then x :: s.filter p else s.filter p := by
  intro s
  induction s with
  | nil => cases hx : p x <;> simp [List.orderedInsert, hx]
  | cons y t ih =>
      by_cases hr : r x y
      · simp only [List.orderedInsert, if_pos hr]
        cases hx : p x <;> simp [List.filter_cons, hx]
      · simp only [List.orderedInsert, if_neg hr, List.filter_cons]
        rw [ih]
        by_cases hx : p x = true
        · have hy : p y = false := by
            cases hyv : p y
            · rfl
            · exact absurd (H x y hx hyv) hr
          simp [hx, hy, List.filter_cons]
        · have hx' : p x = false := by
            cases hxe : p x
            · rfl
            · exact absurd hxe hx
          cases hy : p y <;> simp [hx', hy, List.filter_cons]

theorem filter_insertionSort_ties {α : Type} (r : α → α → Prop) [DecidableRel r] (p : α → Bool)
    (H : ∀ a b, p a = true → p b = true → r a b) :
    ∀ l : List α, (List.insertionSort r l).filter p = l.filter p := by
  intro l
  induction l with
  | nil => rfl
  | cons x t ih =>
      show (List.orderedInsert r x (List.insertionSort r t)).filter p = _
      rw [filter_orderedInsert_ties r p H x, ih]
      cases hx : p x <;> simp [List.filter_cons, hx]

/-! ## Rank assignment: `enumerate(start=1)` transported to `RankedArticle` -/

theorem enumFrom_toRanked_triple : ∀ (n : ℕ) (l : List (String × ℚ × String)),
    ((List.enumFrom n l).map toRanked).map
      (fun r => (r.digest_id, r.relevance_score, r.reasoning)) = l := by
  intro n l
  induction l generalizing n with
  | nil => rfl
  | cons x t ih => simp [List.enumFrom, toRanked, ih]

theorem enumFrom_toRanked_rank : ∀ (n : ℕ) (l : List (String × ℚ × String)),
    ((List.enumFrom n l).map toRanked).map (fun r => r.rank) = List.range' n l.length := by
  intro n l
  induction l generalizing n with
  | nil => rfl
  | cons x t ih => simp [List.enumFrom, toRanked, ih, List.range']

theorem enumFrom_toRanked_filter : ∀ (n : ℕ) (l : List (String × ℚ × String)) (q : ℚ),
    (((List.enumFrom n l).map toRanked).filter
        (fun r => decide (r.relevance_score = q))).map
      (fun r => (r.digest_id, r.relevance_score, r.reasoning))
    = l.filter (fun x => decide (x.2.1 = q)) := by
  intro n l q
  induction l generalizing n with
  | nil => rfl
  | cons x t ih =>
      by_cases hx : x.2.1 = q
      · simp [List.enumFrom, toRanked, List.filter_cons, hx, ih]
        rw [← hx]
      · simp [List.enumFrom, toRanked, List.filter_cons, hx, ih]

/-! ## Coordinator-level lemmas -/

theorem mergeRow_fst (llm : Option (List (String × ℚ))) (s : Scored) :
    (mergeRow llm s).1 = s.dg.id := by
  cases llm with
  | none => rfl
  | some m => cases h : dictLookup m s.dg.id <;> simp [mergeRow, h]

theorem mergeRow_score_bounds (llm : Option (List (String × ℚ))) (s : Scored) :
    0 ≤ (mergeRow llm s).2.1 ∧ (mergeRow llm s).2.1 ≤ 10 := by
  cases llm with
  | none => exact ⟨clampScore_nonneg _, clampScore_le_ten _⟩
  | some m =>
      cases h : dictLookup m s.dg.id <;>
        simp only [mergeRow, h] <;>
        exact ⟨clampScore_nonneg _, clampScore_le_ten _⟩

theorem rank_digests_cons (p : UserProfile) (now : ℚ) (llm : Option (List (String × ℚ)))
    (d : Digest) (ds : List Digest) :
    rank_digests p now llm (d :: ds)
      = (List.enumFrom 1 (List.insertionSort rowGE (finalRows p now llm (d :: ds)))).map
          toRanked := by
  simp [rank_digests]

theorem shortlist_nil (p : UserProfile) (now : ℚ) : shortlist p now [] = [] := by
  simp [shortlist, _pre_rank]

theorem rank_triple_perm (p : UserProfile) (now : ℚ) (llm : Option (List (String × ℚ)))
    (ds : List Digest) :
    ((rank_digests p now llm ds).map
        (fun r => (r.digest_id, r.relevance_score, r.reasoning))).Perm
      (finalRows p now llm ds) := by
  cases ds with
  | nil => simp [rank_digests, finalRows, shortlist_nil]
  | cons d t =>
      rw [rank_digests_cons, enumFrom_toRanked_triple]
      exact List.perm_insertionSort rowGE _

theorem finalRows_length (p : UserProfile) (now : ℚ) (llm : Option (List (String × ℚ)))
    (ds : List Digest) : (finalRows p now llm ds).length = min 25 ds.length := by
  rw [finalRows, List.length_map, shortlist, _pre_rank, List.length_take,
    (List.perm_insertionSort scoredGE _).length_eq, List.length_map]
  simp [PRE_RANK_KEEP]

theorem rank_length (p : UserProfile) (now : ℚ) (llm : Option (List (String × ℚ)))
    (ds : List Digest) : (rank_digests p now llm ds).length = min 25 ds.length := by
  have h := (rank_triple_perm p now llm ds).length_eq
  rw [List.length_map] at h
  rw [h, finalRows_length]

theorem rank_ranks (p : UserProfile) (now : ℚ) (llm : Option (List (String × ℚ)))
    (ds : List Digest) :
    (rank_digests p now llm ds).map (fun r => r.rank) = List.range' 1 (min 25 ds.length) := by
  cases ds with
  | nil => simp [rank_digests, List.range']
  | cons d t =>
      rw [rank_digests_cons, enumFrom_toRanked_rank,
        (List.perm_insertionSort rowGE _).length_eq, finalRows_length]

/-! ## Claim theorems -/

/-- C1: when the external scoring step fails with an exception (modelled
by `llm = none`), `rank_digests` still returns a fully ranked list of
N = min(pool size, 25) items — ranks 1..N — and, as multisets, the output
rows are exactly the shortlisted items, each carrying the fallback score
`clamp(3.0 + min(7.0, heuristic_score), 0, 10)` computed from its own
heuristic score (with the pure-heuristic-fallback rationale).  No
exception escapes: the function is total. -/
theorem C1_global_fallback (p : UserProfile) (now : ℚ) (ds : List Digest) :
    ((rank_digests p now none ds).map
        (fun r => (r.digest_id, r.relevance_score, r.reasoning))).Perm
      ((shortlist p now ds).map
        (fun s => (s.dg.id, fallbackScore s.hs, "Heuristic ranking (no LLM): " ++ s.why)))
  ∧ (rank_digests p now none ds).length = min 25 ds.length
  ∧ (rank_digests p now none ds).map (fun r => r.rank) = List.range' 1 (min 25 ds.length) := by
  refine ⟨?_, rank_length p now none ds, rank_ranks p now none ds⟩
  have h := rank_triple_perm p now none ds
  have he : finalRows p now none ds
      = (shortlist p now ds).map
          (fun s => (s.dg.id, fallbackScore s.hs, "Heuristic ranking (no LLM): " ++ s.why)) :=
    List.map_congr_left (fun s _ => rfl)
  rw [he] at h
  exact h

/-- C2: for every pool, `rank_digests` returns exactly min(pool size, 25)
results; their rank fields are exactly the dense integers
1..min(pool size, 25) with no gaps and no duplicates; the returned
identifiers are a permutation of the shortlisted identifiers; and the
empty pool yields the empty list. -/
theorem C2_dense_ranks (p : UserProfile) (now : ℚ) (llm : Option (List (String × ℚ)))
    (ds : List Digest) :
    (rank_digests p now llm ds).length = min 25 ds.length
  ∧ (rank_digests p now llm ds).map (fun r => r.rank) = List.range' 1 (min 25 ds.length)
  ∧ ((rank_digests p now llm ds).map (fun r => r.digest_id)).Perm
      ((shortlist p now ds).map (fun s => s.dg.id))
  ∧ rank_digests p now llm [] = [] := by
  refine ⟨rank_length p now llm ds, rank_ranks p now llm ds, ?_, rfl⟩
  have h := (rank_triple_perm p now llm ds).map (fun x : String × ℚ × String => x.1)
  simp only [List.map_map, Function.comp] at h
  rw [finalRows, List.map_map] at h
  have he : ((shortlist p now ds).map ((fun x : String × ℚ × String => x.1) ∘ mergeRow llm))
      = (shortlist p now ds).map (fun s => s.dg.id) :=
    List.map_congr_left (fun s _ => mergeRow_fst llm s)
  rw [he] at h
  exact h

/-- C3: every relevance score produced by `rank_digests` lies in
[0, 10], for every pool, every clock value and every external score map
(including the failure case `llm = none`). -/
theorem C3_score_bounds (p : UserProfile) (now : ℚ) (llm : Option (List (String × ℚ)))
    (ds : List Digest) (r : RankedArticle) (h : r ∈ rank_digests p now llm ds) :
    0 ≤ r.relevance_score ∧ r.relevance_score ≤ 10 := by
  have hm : (r.digest_id, r.relevance_score, r.reasoning)
      ∈ (rank_digests p now llm ds).map
          (fun r => (r.digest_id, r.relevance_score, r.reasoning)) :=
    List.mem_map_of_mem _ h
  rw [(rank_triple_perm p now llm ds).mem_iff, finalRows] at hm
  rcases List.mem_map.mp hm with ⟨s, _, hs⟩
  have hb := mergeRow_score_bounds llm s
  rw [hs] at hb
  exact hb

/-- C4: the output of `rank_digests` is sorted by score in non-increasing
order; ties are broken by shortlist order (for every score value, the
rows with that score appear in exactly the order they have in
`final_rows`, i.e. the sort is stable); and the i-th element of the
sorted order carries rank i (ranks are the positions 1, 2, …). -/
theorem C4_sorted_stable (p : UserProfile) (now : ℚ) (llm : Option (List (String × ℚ)))
    (ds : List Digest) :
    List.Pairwise (fun a b => b.relevance_score ≤ a.relevance_score) (rank_digests p now llm ds)
  ∧ (∀ q : ℚ,
      ((rank_digests p now llm ds).filter (fun r => decide (r.relevance_score = q))).map
          (fun r => (r.digest_id, r.relevance_score, r.reasoning))
        = (finalRows p now llm ds).filter (fun x => decide (x.2.1 = q)))
  ∧ (rank_digests p now llm ds).map (fun r => r.rank)
      = List.range' 1 (rank_digests p now llm ds).length := by
  refine ⟨?_, ?_, ?_⟩
  · cases ds with
    | nil => simp [rank_digests]
    | cons d t =>
        have hs : List.Pairwise rowGE
            (List.insertionSort rowGE (finalRows p now llm (d :: t))) :=
          List.sorted_insertionSort rowGE _
        rw [← enumFrom_toRanked_triple 1
          (List.insertionSort rowGE (finalRows p now llm (d :: t)))] at hs
        rw [rank_digests_cons]
        exact List.pairwise_map.mp hs
  · intro q
    cases ds with
    | nil => simp [rank_digests, finalRows, shortlist_nil]
    | cons d t =>
        rw [rank_digests_cons, enumFrom_toRanked_filter]
        refine filter_insertionSort_ties rowGE _ (fun a b ha hb => ?_) _
        rw [decide_eq_true_eq] at ha hb
        show b.2.1 ≤ a.2.1
        rw [ha, hb]
  · rw [rank_ranks, rank_length]

/-- C5: on the success path with a partial external score map `m`, each
shortlisted item whose id is in `m` receives its external score clamped
to [0, 10] with the external-score rationale, and each item whose id is
missing from `m` receives the fallback score
`clamp(3.0 + min(7.0, heuristic_score), 0, 10)` with the rationale noting
the external service omitted it; the global-failure rationale never
appears. -/
theorem C5_partial_merge (p : UserProfile) (now : ℚ) (m : List (String × ℚ))
    (ds : List Digest) :
    ((rank_digests p now (some m) ds).map
        (fun r => (r.digest_id, r.relevance_score, r.reasoning))).Perm
      ((shortlist p now ds).map (fun s =>
        match dictLookup m s.dg.id with
        | some sc =>
            (s.dg.id, clampScore sc,
              "LLM relevance score (shortlisted after heuristic pre-rank)")
        | none =>
            (s.dg.id, fallbackScore s.hs,
              "Fallback heuristic (LLM did not return score): " ++ s.why))) := by
  have h := rank_triple_perm p now (some m) ds
  have he : finalRows p now (some m) ds
      = (shortlist p now ds).map (fun s =>
          match dictLookup m s.dg.id with
          | some sc =>
              (s.dg.id, clampScore sc,
                "LLM relevance score (shortlisted after heuristic pre-rank)")
          | none =>
              (s.dg.id, fallbackScore s.hs,
                "Fallback heuristic (LLM did not return score): " ++ s.why)) :=
    List.map_congr_left (fun s _ => rfl)
  rw [he] at h
  exact h

/-- C6 (amended): the parsing stage signals a parse error when no
brace-to-brace span is found or when the extracted span is not valid
JSON; but an absent top-level `articles` list does NOT signal an error —
`data.get("articles", [])` silently yields the empty score map, which the
coordinator treats as the per-item-fallback success path. -/
theorem C6_amended_parse :
    (∀ (loads : String → Option Json) (text jt : String) (fields : List (String × Json)),
        _extract_json text = Except.ok jt → loads jt = some (Json.obj fields) →
        jsonGet (Json.obj fields) "articles" = none →
        llmParse loads text = Except.ok [])
  ∧ (∀ (loads : String → Option Json) (text jt : String),
        _extract_json text = Except.ok jt → loads jt = none →
        llmParse loads text = Except.error ())
  ∧ (∀ (loads : String → Option Json) (text : String),
        _extract_json text = Except.error () → llmParse loads text = Except.error ()) := by
  refine ⟨?_, ?_, ?_⟩
  · intro loads text jt fields h1 h2 h3
    simp only [llmParse, h1, h2, scoresFromData, h3]
  · intro loads text jt h1 h2
    simp only [llmParse, h1, h2]
  · intro loads text h1
    simp only [llmParse, h1]

/-- C6 (counterexample): `text0` is a valid JSON object with no
`articles` key; parsing it raises no error and returns the empty score
map, contradicting the claim that an absent `articles` list is one of
the cases that signal a parse error. -/
theorem C6_counterexample :
    loads0 text0 = some json0 ∧ jsonGet json0 "articles" = none
  ∧ llmParse loads0 text0 = Except.ok [] := ⟨rfl, rfl, rfl⟩

/-- C6 (witness): the amended theorem applied to the concrete response
`text0` with the concrete `json.loads` oracle `loads0`. -/
theorem C6_parse_witness : llmParse loads0 text0 = Except.ok [] :=
  C6_amended_parse.1 loads0 text0 text0 [("a", Json.num 1)] rfl rfl rfl

theorem summary_le_digestBlock (d : Digest) :
    (optStr d.summary).length ≤ (digestBlock d).length := by
  simp [digestBlock, String.length_append]
  omega

/-- C7 (counterexample): there is no constant bounding the per-item
request block: blocks embed the full summary untruncated, so a summary
of length C+1 defeats any candidate bound C. -/
theorem C7_counterexample :
    ¬ ∃ C : ℕ, ∀ d : Digest, (digestBlock d).length ≤ C := by
  rintro ⟨C, h⟩
  have hd := h ⟨"", none, some (String.mk (List.replicate (C + 1) 'a')), "", none⟩
  have hs := summary_le_digestBlock
    ⟨"", none, some (String.mk (List.replicate (C + 1) 'a')), "", none⟩
  dsimp only at hs
  have hlen : (optStr (some (String.mk (List.replicate (C + 1) 'a')))).length = C + 1 := by
    simp [optStr, String.length]
  omega

/-- C7 (amended): each per-item block consists of exactly the four
fields plus 29 characters of fixed labels — in particular nothing is
truncated, so the block size grows without bound in the summary length
instead of being bounded by a fixed per-item constant. -/
theorem C7_amended_block_length (d : Digest) :
    (digestBlock d).length
      = 29 + d.id.length + (optStr d.title).length + (optStr d.summary).length
          + d.article_type.length := by
  have h1 : ("ID: " : String).length = 4 := rfl
  have h2 : ("\nTitle: " : String).length = 8 := rfl
  have h3 : ("\nSummary: " : String).length = 10 := rfl
  have h4 : ("\nType: " : String).length = 7 := rfl
  simp [digestBlock, String.length_append, h1, h2, h3, h4]
  omega

/-- C8 (counterexample): for the profile that avoids marketing hype and
an item titled "webinar", the down-set intersection count is 1, yet the
rationale is exactly "interest=0, boost=0, recency=0.00": the string "1"
(the down count) does not occur in it, nor does any "down" marker — the
rationale does not contain all four quantities. -/
theorem C8_counterexample :
    (heuristicParts pHype 0 dWeb).2.2.1 = 1
  ∧ (_heuristic_score pHype 0 dWeb).2 = "interest=0, boost=0, recency=0.00"
  ∧ strContains (_heuristic_score pHype 0 dWeb).2
      (toString (heuristicParts pHype 0 dWeb).2.2.1) = false
  ∧ strContains (_heuristic_score pHype 0 dWeb).2 "down" = false := by decide

/-- C8 (amended): the heuristic rationale always contains the
interest-hit count, the boost-hit count and the formatted recency value;
the down-hit count is not recorded. -/
theorem C8_amended_rationale (p : UserProfile) (now : ℚ) (d : Digest) :
    strContains (_heuristic_score p now d).2 (toString (heuristicParts p now d).1) = true
  ∧ strContains (_heuristic_score p now d).2 (toString (heuristicParts p now d).2.1) = true
  ∧ strContains (_heuristic_score p now d).2 (fmt2 (heuristicParts p now d).2.2.2) = true := by
  refine ⟨?_, ?_, ?_⟩
  · refine strContains_of_data _ _ ("interest=".data)
      ((", boost=" ++ toString (heuristicParts p now d).2.1 ++ ", recency=" ++
        fmt2 (heuristicParts p now d).2.2.2).data) ?_
    simp [_heuristic_score, String.data_append, List.append_assoc]
  · refine strContains_of_data _ _
      (("interest=" ++ toString (heuristicParts p now d).1 ++ ", boost=").data)
      ((", recency=" ++ fmt2 (heuristicParts p now d).2.2.2).data) ?_
    simp [_heuristic_score, String.data_append, List.append_assoc]
  · refine strContains_of_data _ _
      (("interest=" ++ toString (heuristicParts p now d).1 ++ ", boost=" ++
        toString (heuristicParts p now d).2.1 ++ ", recency=").data) [] ?_
    simp [_heuristic_score, String.data_append, List.append_assoc]

/-- C9 (counterexample): the heuristic scorer is not independent of the
current time: the same digest (created at POSIX time 0) and the same
profile give different (score, rationale) pairs when evaluated at time 0
and 24 hours later. -/
theorem C9_counterexample :
    _heuristic_score p0 0 dC9 ≠ _heuristic_score p0 86400 dC9 := by decide

/-- C9 (amended): the heuristic scorer is a pure function of the item,
the profile and the current time; when the item has no usable creation
timestamp it is independent of the current time as well. -/
theorem C9_amended_time_free (p : UserProfile) (d : Digest) (now1 now2 : ℚ)
    (h : d.created_at = none) :
    _heuristic_score p now1 d = _heuristic_score p now2 d := by
  simp [_heuristic_score, heuristicParts, h]

/-- C9 (witness): the amended theorem applied to a concrete
timestamp-free digest at two different clock values. -/
theorem C9_time_free_witness :
    d0.created_at = none ∧ _heuristic_score p0 0 d0 = _heuristic_score p0 5 d0 :=
  ⟨rfl, C9_amended_time_free p0 d0 0 5 rfl⟩

/-- C10: the tokenizer maps "GPT-4 Release Notes!!" to exactly the
tokens release/notes (case-folded, punctuation as separator, runs
shorter than 4 dropped), maps "gpt-4" to the empty set, keeps
"scalability", and maps null and empty input to the empty set. -/
theorem C10_tokenizer :
    _tokenize (some "GPT-4 Release Notes!!") = ["release", "notes"]
  ∧ _tokenize (some "gpt-4") = []
  ∧ _tokenize (some "scalability") = ["scalability"]
  ∧ _tokenize none = []
  ∧ _tokenize (some "") = [] := by decide

/-- C3 (witness): the bounds theorem applied to the single output row of
a concrete one-digest run whose external call failed. -/
theorem C3_score_bounds_witness :
    0 ≤ (RankedArticle.mk "a" 3 1
        "Heuristic ranking (no LLM): interest=0, boost=0, recency=0.00").relevance_score
  ∧ (RankedArticle.mk "a" 3 1
        "Heuristic ranking (no LLM): interest=0, boost=0, recency=0.00").relevance_score
      ≤ 10 :=
  C3_score_bounds p0 0 none [d0] _ (by decide)
